import Mathlib

/-
Verification of the statechart machines of the learn-xstate repository.

The repository defines three variants of a door/lock statechart pair on top
of the xstate engine.  The machine tables (states, guards, actions,
invocations) are embedded here directly from the source files; the engine
behaviour they run on (macro-step loop, invocation generations, snapshot
synchronisation, persistence codec) is modelled from the specification,
since the engine itself is an external dependency of the repository.
-/

set_option autoImplicit false

namespace LearnXState

/-- Kinds of state nodes in a statechart definition. -/
inductive NodeKind
  | atomic
  | compound
  | parallel
  | final
  deriving DecidableEq

/-- A static statechart tree: the node list, the root, and for each node its
parent, kind and children. -/
structure Chart (ν : Type) where
  nodes : List ν
  root : ν
  parent : ν → Option ν
  kind : ν → NodeKind
  children : ν → List ν

/-- A configuration (list of active node ids) is valid when the root is
active, every active non-root node has an active parent, every active
compound node has exactly one active child, and every active parallel node
has all children active. -/
def validConfig {ν : Type} [DecidableEq ν] (c : Chart ν) (active : List ν) : Bool :=
  active.contains c.root &&
  c.nodes.all (fun n =>
    !(active.contains n) ||
      ((match c.parent n with
        | none => true
        | some p => active.contains p) &&
       (match c.kind n with
        | NodeKind.compound =>
            ((c.children n).filter (fun m => active.contains m)).length == 1
        | NodeKind.parallel =>
            (c.children n).all (fun m => active.contains m)
        | _ => true)))

/-- Outcome of an asynchronous invocation: the promise resolves, or rejects
with an error message. -/
inductive InvokeResult
  | success
  | failure (message : String)
  deriving DecidableEq

/-- Actor status per the snapshot format. -/
inductive ActorStatus
  | running
  | done
  | error
  deriving DecidableEq

namespace DoorTsx

/-! ### The lock machine of `src/src/app/Door.tsx` -/

/-- Leaf states of the Door.tsx lock machine: compound `unlocked` with
children `idle`, `locking`, `locked` (final), and compound `locked` with
children `idle`, `unlocking`, `unlocked` (final). -/
inductive LockLeaf
  | unlockedIdle
  | unlockedLocking
  | unlockedLocked
  | lockedIdle
  | lockedUnlocking
  | lockedUnlocked
  deriving DecidableEq

/-- Context of the lock machine, from the source: `{ password, error }`. -/
structure LockContext where
  password : String
  error : String
  deriving DecidableEq

/-- The `isCorrectPassword` guard from the source:
`({ context, event }) => context.password === event.password`. -/
def isCorrectPassword (context : LockContext) (eventPassword : String) : Bool :=
  context.password == eventPassword

/-- External events of the lock machine: `lock.lock` and `lock.unlock`,
each carrying a password. -/
inductive LockEvent
  | lock (password : String)
  | unlock (password : String)
  deriving DecidableEq

/-- Runtime state of the lock actor.  `gen` and `inflight` are modelled from
the spec: a generation counter identifying one activation of a state's
invocation, and the generation currently recorded as pending (if any). -/
structure LockActor where
  leaf : LockLeaf
  context : LockContext
  gen : Nat
  inflight : Option Nat
  deriving DecidableEq

/-- Initial lock actor: `unlocked.idle` with empty password and error. -/
def lockInitial : LockActor :=
  { leaf := LockLeaf.unlockedIdle
    context := { password := "", error := "" }
    gen := 0
    inflight := none }

/-- One lock-machine macro-step on an external event, from the source
transition tables.  `lock.lock` in `unlocked.idle` targets `locking` with
`assignPassword` and starts the `lock` invocation; `lock.unlock` in
`locked.idle` is guarded by `isCorrectPassword` and targets `unlocking`,
starting the `unlock` invocation.  An event matching no transition leaves
the actor unchanged. -/
def lockStep (e : LockEvent) (s : LockActor) : LockActor :=
  match e, s.leaf with
  | LockEvent.lock pw, LockLeaf.unlockedIdle =>
      { s with
        leaf := LockLeaf.unlockedLocking
        context := { s.context with password := pw }
        gen := s.gen + 1
        inflight := some (s.gen + 1) }
  | LockEvent.unlock pw, LockLeaf.lockedIdle =>
      if isCorrectPassword s.context pw then
        { s with
          leaf := LockLeaf.lockedUnlocking
          gen := s.gen + 1
          inflight := some (s.gen + 1) }
      else s
  | _, _ => s

/-- Resolution of an accepted invocation outcome, run to quiescence.
Success in `unlocked.locking` targets the final child `locked`, whose entry
raises `unlocked`'s onDone transition to top-level `locked` with
`clearError`; failure returns to `unlocked.idle` recording the message.
Success in `locked.unlocking` reaches the final child `unlocked`, raising
`locked`'s onDone to top-level `unlocked` with `clearPassword` and
`clearError`; failure returns to `locked.idle` recording the message. -/
def lockResolve (r : InvokeResult) (s : LockActor) : LockActor :=
  match s.leaf, r with
  | LockLeaf.unlockedLocking, InvokeResult.success =>
      { s with
        leaf := LockLeaf.lockedIdle
        context := { s.context with error := "" }
        inflight := none }
  | LockLeaf.unlockedLocking, InvokeResult.failure m =>
      { s with
        leaf := LockLeaf.unlockedIdle
        context := { s.context with error := m }
        inflight := none }
  | LockLeaf.lockedUnlocking, InvokeResult.success =>
      { s with
        leaf := LockLeaf.unlockedIdle
        context := { password := "", error := "" }
        inflight := none }
  | LockLeaf.lockedUnlocking, InvokeResult.failure m =>
      { s with
        leaf := LockLeaf.lockedIdle
        context := { s.context with error := m }
        inflight := none }
  | _, _ => s

/-- Modelled from the spec: delivery of an invocation outcome tagged with
generation `g`.  The outcome is accepted only when `g` matches the recorded
pending generation; otherwise the stale event is silently discarded. -/
def lockDeliver (g : Nat) (r : InvokeResult) (s : LockActor) : LockActor :=
  if s.inflight = some g then lockResolve r s else s

/-- Whether the lock snapshot's `value.locked` field is defined, i.e. the
active top-level child is the `locked` compound. -/
def lockLeafInLocked : LockLeaf → Bool
  | LockLeaf.lockedIdle => true
  | LockLeaf.lockedUnlocking => true
  | LockLeaf.lockedUnlocked => true
  | _ => false

/-- The payload of a `xstate.snapshot.lock` event as read by the door
machine's handler: whether `snapshot.value.locked` is defined, and
`snapshot.context.error`. -/
structure LockSnapshotEvt where
  valueLockedDefined : Bool
  error : String
  deriving DecidableEq

/-- The snapshot-changed event describing a lock actor state. -/
def lockSnapshotOf (s : LockActor) : LockSnapshotEvt :=
  { valueLockedDefined := lockLeafInLocked s.leaf
    error := s.context.error }

/-- Modelled from the spec: a child macro-step on an external event.  With
`syncSnapshot` requested, every macro-step completed by the child enqueues
exactly one snapshot-changed event into the parent's mailbox. -/
def lockMacro (e : LockEvent) (s : LockActor) : LockActor × List LockSnapshotEvt :=
  let s' := lockStep e s
  (s', [lockSnapshotOf s'])

/-- Modelled from the spec: a child macro-step on an invocation outcome.  A
stale outcome (generation mismatch) is silently discarded and completes no
macro-step, so no snapshot event is enqueued for it. -/
def lockMacroOutcome (g : Nat) (r : InvokeResult) (s : LockActor) :
    LockActor × List LockSnapshotEvt :=
  if s.inflight = some g then
    let s' := lockResolve r s
    (s', [lockSnapshotOf s'])
  else (s, [])

/-! ### The door machine of `src/src/app/Door.tsx` -/

/-- Leaf states of the Door.tsx door machine: compound `closed` with
children `idle`, `opening`, `opened` (final), and compound `open` with
children `idle`, `closing`, `closed` (final). -/
inductive DoorLeaf
  | closedIdle
  | closedOpening
  | closedOpened
  | openIdle
  | openClosing
  | openClosed
  deriving DecidableEq

/-- Context of the door machine as carried by the model: the derived
`locked` flag and the `error` string.  The `lockRef` field of the source
context is represented by the owned child actor in `Sys`. -/
structure DoorContext where
  locked : Bool
  error : String
  deriving DecidableEq

/-- External events of the door machine. -/
inductive DoorEvent
  | doorOpen
  | doorClose
  | doorLock (password : String)
  | doorUnlock (password : String)
  deriving DecidableEq

/-- The whole Door.tsx actor system: the door actor (configuration leaf,
context, invocation bookkeeping, status) and its owned, spawned lock child. -/
structure Sys where
  door : DoorLeaf
  doorCtx : DoorContext
  doorGen : Nat
  doorInflight : Option Nat
  status : ActorStatus
  lock : LockActor
  deriving DecidableEq

/-- Initial system: door at `closed.idle` with `locked := false` and empty
error, lock child spawned at its initial state, status running. -/
def sysInit : Sys :=
  { door := DoorLeaf.closedIdle
    doorCtx := { locked := false, error := "" }
    doorGen := 0
    doorInflight := none
    status := ActorStatus.running
    lock := lockInitial }

/-- The door machine's root `xstate.snapshot.lock` handler, from the source:
`locked := event.snapshot.value.locked !== undefined` and
`error := event.snapshot.context.error`. -/
def applyLockSnapshot (ev : LockSnapshotEvt) (_c : DoorContext) : DoorContext :=
  { locked := ev.valueLockedDefined, error := ev.error }

/-- Send an event to the spawned lock child and, to quiescence, let the
parent consume every snapshot-changed event the child macro-step enqueued. -/
def sysSendToLock (e : LockEvent) (s : Sys) : Sys :=
  let p := lockMacro e s.lock
  { s with
    lock := p.1
    doorCtx := p.2.foldl (fun c n => applyLockSnapshot n c) s.doorCtx }

/-- Modelled from the spec: delivery of an outcome of the door's own
invocation (`openDoor` in `closed.opening`, `closeDoor` in `open.closing`),
accepted only on generation match.  Success in `closed.opening` reaches the
final child `opened`, raising `closed`'s onDone to `open` with `clearError`;
failure returns to `closed.idle` recording the message, and symmetrically
for `open.closing`. -/
def doorDeliver (g : Nat) (r : InvokeResult) (s : Sys) : Sys :=
  if s.doorInflight = some g then
    match s.door, r with
    | DoorLeaf.closedOpening, InvokeResult.success =>
        { s with
          door := DoorLeaf.openIdle
          doorCtx := { s.doorCtx with error := "" }
          doorInflight := none }
    | DoorLeaf.closedOpening, InvokeResult.failure m =>
        { s with
          door := DoorLeaf.closedIdle
          doorCtx := { s.doorCtx with error := m }
          doorInflight := none }
    | DoorLeaf.openClosing, InvokeResult.success =>
        { s with
          door := DoorLeaf.closedIdle
          doorCtx := { s.doorCtx with error := "" }
          doorInflight := none }
    | DoorLeaf.openClosing, InvokeResult.failure m =>
        { s with
          door := DoorLeaf.openIdle
          doorCtx := { s.doorCtx with error := m }
          doorInflight := none }
    | _, _ => s
  else s

/-- A door macro-step on an external event, from the source transition
tables.  `door.open` in `closed.idle` is guarded by `!context.locked` and
targets `opening`, starting the `openDoor` invocation; `door.lock` and
`door.unlock` in `closed.idle` are targetless transitions whose action sends
the corresponding event to the lock child; `door.close` in `open.idle`
targets `closing`, starting `closeDoor`.  Anything else matches no
transition. -/
def doorStep (e : DoorEvent) (s : Sys) : Sys :=
  match e, s.door with
  | DoorEvent.doorOpen, DoorLeaf.closedIdle =>
      if s.doorCtx.locked then s
      else
        { s with
          door := DoorLeaf.closedOpening
          doorGen := s.doorGen + 1
          doorInflight := some (s.doorGen + 1) }
  | DoorEvent.doorLock pw, DoorLeaf.closedIdle =>
      sysSendToLock (LockEvent.lock pw) s
  | DoorEvent.doorUnlock pw, DoorLeaf.closedIdle =>
      sysSendToLock (LockEvent.unlock pw) s
  | DoorEvent.doorClose, DoorLeaf.openIdle =>
      { s with
        door := DoorLeaf.openClosing
        doorGen := s.doorGen + 1
        doorInflight := some (s.doorGen + 1) }
  | _, _ => s

/-- External stimuli to the system: a door event, or the asynchronous
outcome of a lock-child invocation or of a door invocation, tagged with its
generation. -/
inductive Stim
  | door (e : DoorEvent)
  | lockOutcome (g : Nat) (r : InvokeResult)
  | doorOutcome (g : Nat) (r : InvokeResult)
  deriving DecidableEq

/-- Process one stimulus to quiescence. -/
def sysStep (st : Stim) (s : Sys) : Sys :=
  match st with
  | Stim.door e => doorStep e s
  | Stim.lockOutcome g r =>
      let p := lockMacroOutcome g r s.lock
      { s with
        lock := p.1
        doorCtx := p.2.foldl (fun c n => applyLockSnapshot n c) s.doorCtx }
  | Stim.doorOutcome g r => doorDeliver g r s

/-- Run the system from the initial state over a list of stimuli. -/
def sysRun (stims : List Stim) : Sys :=
  stims.foldl (fun s st => sysStep st s) sysInit

/-! ### State-node charts for configuration validity -/

/-- Node ids of the lock machine tree. -/
inductive LockNode
  | root
  | unlocked
  | locked
  | uIdle
  | uLocking
  | uLocked
  | lIdle
  | lUnlocking
  | lUnlocked
  deriving DecidableEq

/-- The lock machine's state tree, from the source definition. -/
def lockChart : Chart LockNode :=
  { nodes := [LockNode.root, LockNode.unlocked, LockNode.locked,
      LockNode.uIdle, LockNode.uLocking, LockNode.uLocked,
      LockNode.lIdle, LockNode.lUnlocking, LockNode.lUnlocked]
    root := LockNode.root
    parent := fun n =>
      match n with
      | LockNode.root => none
      | LockNode.unlocked => some LockNode.root
      | LockNode.locked => some LockNode.root
      | LockNode.uIdle => some LockNode.unlocked
      | LockNode.uLocking => some LockNode.unlocked
      | LockNode.uLocked => some LockNode.unlocked
      | LockNode.lIdle => some LockNode.locked
      | LockNode.lUnlocking => some LockNode.locked
      | LockNode.lUnlocked => some LockNode.locked
    kind := fun n =>
      match n with
      | LockNode.root => NodeKind.compound
      | LockNode.unlocked => NodeKind.compound
      | LockNode.locked => NodeKind.compound
      | LockNode.uLocked => NodeKind.final
      | LockNode.lUnlocked => NodeKind.final
      | _ => NodeKind.atomic
    children := fun n =>
      match n with
      | LockNode.root => [LockNode.unlocked, LockNode.locked]
      | LockNode.unlocked => [LockNode.uIdle, LockNode.uLocking, LockNode.uLocked]
      | LockNode.locked => [LockNode.lIdle, LockNode.lUnlocking, LockNode.lUnlocked]
      | _ => [] }

/-- The active configuration (set of active node ids) determined by a lock
leaf: the leaf together with its ancestors. -/
def lockActive : LockLeaf → List LockNode
  | LockLeaf.unlockedIdle => [LockNode.root, LockNode.unlocked, LockNode.uIdle]
  | LockLeaf.unlockedLocking => [LockNode.root, LockNode.unlocked, LockNode.uLocking]
  | LockLeaf.unlockedLocked => [LockNode.root, LockNode.unlocked, LockNode.uLocked]
  | LockLeaf.lockedIdle => [LockNode.root, LockNode.locked, LockNode.lIdle]
  | LockLeaf.lockedUnlocking => [LockNode.root, LockNode.locked, LockNode.lUnlocking]
  | LockLeaf.lockedUnlocked => [LockNode.root, LockNode.locked, LockNode.lUnlocked]

/-- Node ids of the door machine tree. -/
inductive DoorNode
  | root
  | closed
  | isOpen
  | cIdle
  | cOpening
  | cOpened
  | oIdle
  | oClosing
  | oClosed
  deriving DecidableEq

/-- The door machine's state tree, from the source definition. -/
def doorChart : Chart DoorNode :=
  { nodes := [DoorNode.root, DoorNode.closed, DoorNode.isOpen,
      DoorNode.cIdle, DoorNode.cOpening, DoorNode.cOpened,
      DoorNode.oIdle, DoorNode.oClosing, DoorNode.oClosed]
    root := DoorNode.root
    parent := fun n =>
      match n with
      | DoorNode.root => none
      | DoorNode.closed => some DoorNode.root
      | DoorNode.isOpen => some DoorNode.root
      | DoorNode.cIdle => some DoorNode.closed
      | DoorNode.cOpening => some DoorNode.closed
      | DoorNode.cOpened => some DoorNode.closed
      | DoorNode.oIdle => some DoorNode.isOpen
      | DoorNode.oClosing => some DoorNode.isOpen
      | DoorNode.oClosed => some DoorNode.isOpen
    kind := fun n =>
      match n with
      | DoorNode.root => NodeKind.compound
      | DoorNode.closed => NodeKind.compound
      | DoorNode.isOpen => NodeKind.compound
      | DoorNode.cOpened => NodeKind.final
      | DoorNode.oClosed => NodeKind.final
      | _ => NodeKind.atomic
    children := fun n =>
      match n with
      | DoorNode.root => [DoorNode.closed, DoorNode.isOpen]
      | DoorNode.closed => [DoorNode.cIdle, DoorNode.cOpening, DoorNode.cOpened]
      | DoorNode.isOpen => [DoorNode.oIdle, DoorNode.oClosing, DoorNode.oClosed]
      | _ => [] }

/-- The active configuration determined by a door leaf. -/
def doorActive : DoorLeaf → List DoorNode
  | DoorLeaf.closedIdle => [DoorNode.root, DoorNode.closed, DoorNode.cIdle]
  | DoorLeaf.closedOpening => [DoorNode.root, DoorNode.closed, DoorNode.cOpening]
  | DoorLeaf.closedOpened => [DoorNode.root, DoorNode.closed, DoorNode.cOpened]
  | DoorLeaf.openIdle => [DoorNode.root, DoorNode.isOpen, DoorNode.oIdle]
  | DoorLeaf.openClosing => [DoorNode.root, DoorNode.isOpen, DoorNode.oClosing]
  | DoorLeaf.openClosed => [DoorNode.root, DoorNode.isOpen, DoorNode.oClosed]

/-! ### Persistence codec (modelled from the spec) -/

/-- Persisted snapshot of the lock child: status, state value, context. -/
structure LockPersisted where
  status : ActorStatus
  value : LockLeaf
  context : LockContext
  deriving DecidableEq

/-- Persisted snapshot of the door actor: status, state value, context, and
the owned child's snapshot. -/
structure DoorPersisted where
  status : ActorStatus
  value : DoorLeaf
  context : DoorContext
  lockChild : LockPersisted
  deriving DecidableEq

/-- Modelled from the spec: `getPersistedSnapshot` serializes status, active
configuration, context and children. -/
def getPersistedSnapshot (s : Sys) : DoorPersisted :=
  { status := s.status
    value := s.door
    context := s.doorCtx
    lockChild :=
      { status := ActorStatus.running
        value := s.lock.leaf
        context := s.lock.context } }

/-- Modelled from the spec: rehydration of a persisted snapshot with the
same definition.  Configuration and context are restored; pending
invocations are not restarted, so no invocation is in flight. -/
def rehydrate (p : DoorPersisted) : Sys :=
  { door := p.value
    doorCtx := p.context
    doorGen := 0
    doorInflight := none
    status := p.status
    lock :=
      { leaf := p.lockChild.value
        context := p.lockChild.context
        gen := 0
        inflight := none } }

end DoorTsx

namespace Guards

/-! ### All guards declared across the three variants -/

/-- Identifiers for every guard appearing in the repository: the named
`isCorrectPassword` guards of the three lock machines, the inline
`door.open` guards of the Door.tsx and first-variant door machines
(`!context.locked`), the inline `door.open` guard of the `part_001` door
machine (which dereferences `context.lockRef` and inspects
`lockRef.getSnapshot().value`), and the named `isLocked` / `isUnlocked`
guards of the third variant's door machine. -/
inductive GuardId
  | doorTsxIsCorrectPassword
  | doorTsxDoorOpen
  | v1IsCorrectPassword
  | v1DoorOpen
  | p1IsCorrectPassword
  | p1DoorOpen
  | v3IsCorrectPassword
  | v3IsLocked
  | v3IsUnlocked
  deriving DecidableEq

/-- The context fields a guard body can read: the lock machines' stored
`password`, the door machines' derived `locked` flag, and (for `part_001`)
whether `context.lockRef` is non-null. -/
structure GuardContext where
  password : String
  locked : Bool
  lockRefSpawned : Bool
  deriving DecidableEq

/-- The event payload a guard body can read. -/
structure GuardEvent where
  password : String
  deriving DecidableEq

/-- Leaf states of the `part_001` lock machine (no invocations: `locking`
and `unlocking` are immediate final children). -/
inductive P1LockLeaf
  | unlockedIdle
  | unlockedLocking
  | lockedIdle
  | lockedUnlocking
  deriving DecidableEq

/-- Whether the `part_001` lock snapshot's `value.unlocked` field is
defined, i.e. the active top-level child is the `unlocked` compound. -/
def p1ValueUnlockedDefined : P1LockLeaf → Bool
  | P1LockLeaf.unlockedIdle => true
  | P1LockLeaf.unlockedLocking => true
  | _ => false

/-- The world beyond context and event that a guard body can reach through
an actor reference: the spawned lock child's current snapshot. -/
structure GuardWorld where
  lockLeaf : P1LockLeaf
  deriving DecidableEq

/-- Evaluation of each guard, with the body translated from its source.
Only the `part_001` `door.open` guard consults the world: it returns false
when `context.lockRef === null` and otherwise reads
`context.lockRef.getSnapshot().value.unlocked !== undefined`. -/
def evalGuard : GuardId → GuardContext → GuardEvent → GuardWorld → Bool
  | GuardId.doorTsxIsCorrectPassword, c, e, _ => c.password == e.password
  | GuardId.doorTsxDoorOpen, c, _, _ => !c.locked
  | GuardId.v1IsCorrectPassword, c, e, _ => c.password == e.password
  | GuardId.v1DoorOpen, c, _, _ => !c.locked
  | GuardId.p1IsCorrectPassword, c, e, _ => c.password == e.password
  | GuardId.p1DoorOpen, c, _, w =>
      if c.lockRefSpawned then p1ValueUnlockedDefined w.lockLeaf else false
  | GuardId.v3IsCorrectPassword, c, e, _ => e.password == c.password
  | GuardId.v3IsLocked, c, _, _ => c.locked
  | GuardId.v3IsUnlocked, c, _, _ => !c.locked

end Guards

namespace V3

/-! ### The third variant (second document of `src/unnamed/part_000`) -/

/-- Leaf states of the third variant's lock machine: a flat machine with
`locked`, `unlocking`, `unlocked`, `locking`. -/
inductive LockLeaf
  | locked
  | unlocking
  | unlocked
  | locking
  deriving DecidableEq

/-- Context of the third variant's lock machine:
`{ password, error, userPassword }`. -/
structure LockContext where
  password : String
  error : String
  userPassword : String
  deriving DecidableEq

/-- External events of the lock machine. -/
inductive LockEvent
  | lock (password : String)
  | unlock (password : String)
  deriving DecidableEq

/-- Runtime state of the invoked lock-manager actor, with spec-modelled
invocation generation bookkeeping. -/
structure LockActor where
  leaf : LockLeaf
  context : LockContext
  gen : Nat
  inflight : Option Nat
  deriving DecidableEq

/-- Initial lock actor: `unlocked` with all context strings empty. -/
def lockInitial : LockActor :=
  { leaf := LockLeaf.unlocked
    context := { password := "", error := "", userPassword := "" }
    gen := 0
    inflight := none }

/-- Events the lock machine sends to its parent with `sendParent`:
`lock.locked`, `lock.unlocked`, and `lock.error` carrying a message. -/
inductive ParentEvt
  | locked
  | unlocked
  | lockError (message : String)
  deriving DecidableEq

/-- One lock-machine step on an external event, from the source.  `lock.lock`
in `unlocked` records the candidate password into `userPassword` and enters
`locking` (starting the `lock` invocation); `lock.unlock` in `locked` is
guarded by `isCorrectPassword` and enters `unlocking` (starting `unlock`). -/
def lockStep (e : LockEvent) (s : LockActor) : LockActor :=
  match e, s.leaf with
  | LockEvent.lock pw, LockLeaf.unlocked =>
      { s with
        leaf := LockLeaf.locking
        context := { s.context with userPassword := pw }
        gen := s.gen + 1
        inflight := some (s.gen + 1) }
  | LockEvent.unlock pw, LockLeaf.locked =>
      if pw == s.context.password then
        { s with
          leaf := LockLeaf.unlocking
          gen := s.gen + 1
          inflight := some (s.gen + 1) }
      else s
  | _, _ => s

/-- Resolution of an accepted invocation outcome, with the `sendParent`
events raised by the transition's actions.  From the source: `unlocking`
success goes to `unlocked`, sends `lock.unlocked`, clears password and
error; its failure goes to `locked`, sends `lock.error`, records the error.
`locking` success goes to `locked`, sends `lock.locked`, commits
`userPassword` into `password` and clears it and the error; its failure
goes to `unlocked`, sends `lock.error`, records the error. -/
def lockResolve (r : InvokeResult) (s : LockActor) : LockActor × List ParentEvt :=
  match s.leaf, r with
  | LockLeaf.unlocking, InvokeResult.success =>
      ({ s with
          leaf := LockLeaf.unlocked
          context := { s.context with password := "", error := "" }
          inflight := none },
       [ParentEvt.unlocked])
  | LockLeaf.unlocking, InvokeResult.failure m =>
      ({ s with
          leaf := LockLeaf.locked
          context := { s.context with error := m }
          inflight := none },
       [ParentEvt.lockError m])
  | LockLeaf.locking, InvokeResult.success =>
      ({ s with
          leaf := LockLeaf.locked
          context :=
            { password := s.context.userPassword, userPassword := "", error := "" }
          inflight := none },
       [ParentEvt.locked])
  | LockLeaf.locking, InvokeResult.failure m =>
      ({ s with
          leaf := LockLeaf.unlocked
          context := { s.context with error := m }
          inflight := none },
       [ParentEvt.lockError m])
  | _, _ => (s, [])

/-- Leaf states of the third variant's door machine.  The source declares a
fifth entry under the literal states key `"*"`: an ordinary state node that
is never targeted by any transition, not a wildcard. -/
inductive DoorLeaf
  | closed
  | opening
  | isOpen
  | closing
  | star
  deriving DecidableEq

/-- Context of the third variant's door machine: `{ locked, error }`. -/
structure DoorContext where
  locked : Bool
  error : String
  deriving DecidableEq

/-- External events of the door machine. -/
inductive DoorEvent
  | doorOpen
  | doorClose
  | doorLock (password : String)
  | doorUnlock (password : String)
  deriving DecidableEq

/-- The third variant's actor system: the door actor and the lock-manager
child invoked at the machine root. -/
structure Sys where
  door : DoorLeaf
  doorCtx : DoorContext
  doorGen : Nat
  doorInflight : Option Nat
  lock : LockActor
  deriving DecidableEq

/-- Initial system: door `closed`, `locked := false`, empty error, lock
manager at its initial state. -/
def sysInit : Sys :=
  { door := DoorLeaf.closed
    doorCtx := { locked := false, error := "" }
    doorGen := 0
    doorInflight := none
    lock := lockInitial }

/-- Handling of one lock-manager-sent event by the door machine, from the
source transition tables: `lock.locked` and `lock.unlocked` are handled
only in state `closed` and set the `locked` flag; `lock.error` is declared
only under the state named `"*"`, so in every other state it matches no
transition and is discarded. -/
def doorHandleParentEvt (p : ParentEvt) (s : Sys) : Sys :=
  match p, s.door with
  | ParentEvt.locked, DoorLeaf.closed =>
      { s with doorCtx := { s.doorCtx with locked := true } }
  | ParentEvt.unlocked, DoorLeaf.closed =>
      { s with doorCtx := { s.doorCtx with locked := false } }
  | ParentEvt.lockError m, DoorLeaf.star =>
      { s with doorCtx := { s.doorCtx with error := m } }
  | _, _ => s

/-- Modelled from the spec: delivery of an outcome of the door's own
invocation, accepted only on generation match.  `opening` success targets
`open` clearing the error; its failure returns to `closed` recording the
message; symmetrically for `closing`. -/
def doorDeliver (g : Nat) (r : InvokeResult) (s : Sys) : Sys :=
  if s.doorInflight = some g then
    match s.door, r with
    | DoorLeaf.opening, InvokeResult.success =>
        { s with
          door := DoorLeaf.isOpen
          doorCtx := { s.doorCtx with error := "" }
          doorInflight := none }
    | DoorLeaf.opening, InvokeResult.failure m =>
        { s with
          door := DoorLeaf.closed
          doorCtx := { s.doorCtx with error := m }
          doorInflight := none }
    | DoorLeaf.closing, InvokeResult.success =>
        { s with
          door := DoorLeaf.closed
          doorCtx := { s.doorCtx with error := "" }
          doorInflight := none }
    | DoorLeaf.closing, InvokeResult.failure m =>
        { s with
          door := DoorLeaf.isOpen
          doorCtx := { s.doorCtx with error := m }
          doorInflight := none }
    | _, _ => s
  else s

/-- A door macro-step on an external event, from the source.  `door.open`
in `closed` is guarded by `isUnlocked` and targets `opening` (starting the
`openDoor` invocation); `door.lock` / `door.unlock` in `closed` forward to
the lock manager via `sendTo`; `door.close` in `open` targets `closing`. -/
def doorStep (e : DoorEvent) (s : Sys) : Sys :=
  match e, s.door with
  | DoorEvent.doorOpen, DoorLeaf.closed =>
      if s.doorCtx.locked then s
      else
        { s with
          door := DoorLeaf.opening
          doorGen := s.doorGen + 1
          doorInflight := some (s.doorGen + 1) }
  | DoorEvent.doorLock pw, DoorLeaf.closed =>
      { s with lock := lockStep (LockEvent.lock pw) s.lock }
  | DoorEvent.doorUnlock pw, DoorLeaf.closed =>
      { s with lock := lockStep (LockEvent.unlock pw) s.lock }
  | DoorEvent.doorClose, DoorLeaf.isOpen =>
      { s with
        door := DoorLeaf.closing
        doorGen := s.doorGen + 1
        doorInflight := some (s.doorGen + 1) }
  | _, _ => s

/-- External stimuli for the third variant's system. -/
inductive Stim
  | door (e : DoorEvent)
  | lockOutcome (g : Nat) (r : InvokeResult)
  | doorOutcome (g : Nat) (r : InvokeResult)
  deriving DecidableEq

/-- Process one stimulus to quiescence: a lock invocation outcome, when
accepted, raises `sendParent` events which the door processes in order. -/
def sysStep (st : Stim) (s : Sys) : Sys :=
  match st with
  | Stim.door e => doorStep e s
  | Stim.lockOutcome g r =>
      if s.lock.inflight = some g then
        let p := lockResolve r s.lock
        p.2.foldl (fun t ev => doorHandleParentEvt ev t) { s with lock := p.1 }
      else s
  | Stim.doorOutcome g r => doorDeliver g r s

/-- Run the third variant's system from its initial state. -/
def sysRun (stims : List Stim) : Sys :=
  stims.foldl (fun s st => sysStep st s) sysInit

end V3

namespace V1

/-! ### The first variant (first document of `src/unnamed/part_000`), with
explicit mailboxes -/

/-- Leaf states of the first variant's lock machine: compound `unlocked`
with children `idle` and `locking` (final), and compound `locked` with
children `idle` and `unlocking` (final).  The final children are transient:
a macro-step entering them runs the parent compound's onDone chain to
quiescence, so the actor only rests in the two `idle` leaves. -/
inductive LockLeaf
  | unlockedIdle
  | unlockedLocking
  | lockedIdle
  | lockedUnlocking
  deriving DecidableEq

/-- Context of the first variant's lock machine: `{ password, error }`. -/
structure LockContext where
  password : String
  error : String
  deriving DecidableEq

/-- Runtime state of the first variant's lock actor (it has no
invocations, so no generation bookkeeping is needed). -/
structure LockActor where
  leaf : LockLeaf
  context : LockContext
  deriving DecidableEq

/-- Initial lock actor: `unlocked.idle`, empty password and error. -/
def lockInitial : LockActor :=
  { leaf := LockLeaf.unlockedIdle, context := { password := "", error := "" } }

/-- External events of the first variant's lock machine. -/
inductive LockEvent
  | lock (password : String)
  | unlock (password : String)
  deriving DecidableEq

/-- One lock-machine macro-step, run to quiescence, from the source.
`lock.lock` in `unlocked.idle` runs `assignPassword` and targets the final
child `locking`, which raises `unlocked`'s onDone to top-level `locked`
(initial child `idle`).  `lock.unlock` in `locked.idle` is guarded by
`isCorrectPassword`, runs `clearPassword` and targets the final child
`unlocking`, raising `locked`'s onDone to `unlocked` with `clearPassword`. -/
def lockStep (e : LockEvent) (s : LockActor) : LockActor :=
  match e, s.leaf with
  | LockEvent.lock pw, LockLeaf.unlockedIdle =>
      { s with
        leaf := LockLeaf.lockedIdle
        context := { s.context with password := pw } }
  | LockEvent.unlock pw, LockLeaf.lockedIdle =>
      if s.context.password == pw then
        { s with
          leaf := LockLeaf.unlockedIdle
          context := { s.context with password := "" } }
      else s
  | _, _ => s

/-- Whether the first variant's lock snapshot has `value.locked` defined,
i.e. the active top-level child is the `locked` compound. -/
def lockLeafInLocked : LockLeaf → Bool
  | LockLeaf.lockedIdle => true
  | LockLeaf.lockedUnlocking => true
  | _ => false

/-- The payload of a `xstate.snapshot.lock` event as read by the first
variant's door machine: whether `snapshot.value.locked` is defined. -/
structure SnapshotMsg where
  valueLockedDefined : Bool
  deriving DecidableEq

/-- The snapshot-changed event describing a first-variant lock state. -/
def snapshotOf (s : LockActor) : SnapshotMsg :=
  { valueLockedDefined := lockLeafInLocked s.leaf }

/-- Modelled from the spec: a child macro-step with `syncSnapshot`
enqueues exactly one snapshot-changed event for the parent's mailbox. -/
def lockMacro (e : LockEvent) (s : LockActor) : LockActor × List SnapshotMsg :=
  let s' := lockStep e s
  (s', [snapshotOf s'])

/-- Leaf states of the first variant's door machine: flat `closed` and
`open`. -/
inductive DoorLeaf
  | closed
  | isOpen
  deriving DecidableEq

/-- External events of the first variant's door machine. -/
inductive DoorEvent
  | doorOpen
  | doorClose
  | doorLock (password : String)
  | doorUnlock (password : String)
  deriving DecidableEq

/-- The first variant's actor system with explicit mailboxes: the door's
leaf and derived `locked` flag, the spawned lock child, the parent's
mailbox of pending snapshot-changed events, and the child's mailbox of
pending forwarded lock events. -/
structure Sys where
  door : DoorLeaf
  locked : Bool
  lock : LockActor
  parentQueue : List SnapshotMsg
  childQueue : List LockEvent
  deriving DecidableEq

/-- Initial system: door `closed`, `locked := false`, lock child at its
initial state, both mailboxes empty. -/
def sysInit : Sys :=
  { door := DoorLeaf.closed
    locked := false
    lock := lockInitial
    parentQueue := []
    childQueue := [] }

/-- The door machine's handling of a dequeued `xstate.snapshot.lock`
event, from the source: the handler is declared only inside `closed`'s
transition table, where it assigns
`locked := event.snapshot.value.locked !== undefined`; in `open` the event
matches no transition and is discarded. -/
def doorHandleSnapshot (m : SnapshotMsg) (s : Sys) : Sys :=
  match s.door with
  | DoorLeaf.closed => { s with locked := m.valueLockedDefined }
  | DoorLeaf.isOpen => s

/-- A door macro-step on an external event, from the source: `door.open`
in `closed` is guarded by `!context.locked`; `door.lock` / `door.unlock` in
`closed` enqueue the corresponding event into the lock child's mailbox via
`sendTo`; `door.close` in `open` returns to `closed`. -/
def doorStep (e : DoorEvent) (s : Sys) : Sys :=
  match e, s.door with
  | DoorEvent.doorOpen, DoorLeaf.closed =>
      if s.locked then s else { s with door := DoorLeaf.isOpen }
  | DoorEvent.doorLock pw, DoorLeaf.closed =>
      { s with childQueue := s.childQueue ++ [LockEvent.lock pw] }
  | DoorEvent.doorUnlock pw, DoorLeaf.closed =>
      { s with childQueue := s.childQueue ++ [LockEvent.unlock pw] }
  | DoorEvent.doorClose, DoorLeaf.isOpen =>
      { s with door := DoorLeaf.closed }
  | _, _ => s

/-- A scheduler choice in an interleaving of parent-originated and
child-originated events: deliver an external event to the door, let the
parent pull the next event from its mailbox, or let the child pull the
next event from its mailbox. -/
inductive Choice
  | ext (e : DoorEvent)
  | pullParent
  | pullChild
  deriving DecidableEq

/-- One scheduler step of the mailbox-level system.  A parent pull
processes the head snapshot event through the door's transition table; a
child pull runs one child macro-step, which enqueues its snapshot-changed
events onto the parent's mailbox.  Pulling from an empty mailbox does
nothing. -/
def sysStep (c : Choice) (s : Sys) : Sys :=
  match c with
  | Choice.ext e => doorStep e s
  | Choice.pullParent =>
      match s.parentQueue with
      | [] => s
      | m :: rest => doorHandleSnapshot m { s with parentQueue := rest }
  | Choice.pullChild =>
      match s.childQueue with
      | [] => s
      | e :: rest =>
          let p := lockMacro e s.lock
          { s with
            lock := p.1
            childQueue := rest
            parentQueue := s.parentQueue ++ p.2 }

/-- Run the first variant's system from its initial state over an
interleaving. -/
def sysRun (cs : List Choice) : Sys :=
  cs.foldl (fun s c => sysStep c s) sysInit

end V1

/-! ## Theorems -/

namespace DoorTsx

/-- Every configuration a lock leaf determines is valid for the lock chart. -/
theorem lockActive_valid (l : LockLeaf) : validConfig lockChart (lockActive l) = true := by
  cases l <;> rfl

/-- Every configuration a door leaf determines is valid for the door chart. -/
theorem doorActive_valid (d : DoorLeaf) : validConfig doorChart (doorActive d) = true := by
  cases d <;> rfl

/-- C1: for every sequence of external stimuli delivered to the Door.tsx
actor system, the active configuration of both the door actor and the lock
child after any macro-step is a valid configuration of its definition:
every active compound node has exactly one active child, every active
parallel node has all children active, and every active non-root node's
parent is active. -/
theorem door_system_configurations_valid (stims : List Stim) :
    validConfig doorChart (doorActive (sysRun stims).door) = true ∧
    validConfig lockChart (lockActive (sysRun stims).lock.leaf) = true :=
  ⟨doorActive_valid _, lockActive_valid _⟩

/-- C2: while the lock machine's configuration is under the `locked`
compound, a `lock.unlock` event whose password differs from the stored
password leaves the actor completely unchanged (the guard blocks, so the
configuration stays locked and `context.error` is not touched). -/
theorem wrong_password_unlock_blocked (s : LockActor) (q : String)
    (hLocked : lockLeafInLocked s.leaf = true)
    (hq : q ≠ s.context.password) :
    lockStep (LockEvent.unlock q) s = s := by
  obtain ⟨leaf, ⟨pw, er⟩, g, fl⟩ := s
  cases leaf
  case lockedIdle =>
    have h : pw ≠ q := fun h => hq h.symm
    simp [lockStep, isCorrectPassword, h]
  all_goals rfl

/-- Witness for C2: lock with password `"1234"` (the `lock` invocation
succeeding), then send `lock.unlock` with `"4321"`: the configuration is
locked with `context.error` unset, and the event changes nothing. -/
theorem wrong_password_unlock_blocked_witness :
    lockLeafInLocked (lockDeliver 1 InvokeResult.success
        (lockStep (LockEvent.lock "1234") lockInitial)).leaf = true ∧
    (lockDeliver 1 InvokeResult.success
        (lockStep (LockEvent.lock "1234") lockInitial)).context.error = "" ∧
    lockStep (LockEvent.unlock "4321")
        (lockDeliver 1 InvokeResult.success
          (lockStep (LockEvent.lock "1234") lockInitial)) =
      lockDeliver 1 InvokeResult.success
        (lockStep (LockEvent.lock "1234") lockInitial) :=
  ⟨by decide, by decide,
    wrong_password_unlock_blocked _ "4321" (by decide) (by decide)⟩

/-- C8: a reachable interleaving after which the door reports open while the
lock child is locked: send `door.lock "1234"` (the lock starts locking
asynchronously, the derived flag still says unlocked), then `door.open`
(the stale guard passes and `openDoor` starts), then the lock invocation
succeeds (lock becomes locked), then the door invocation succeeds. -/
theorem door_open_while_lock_locked :
    (sysRun [Stim.door (DoorEvent.doorLock "1234"), Stim.door DoorEvent.doorOpen,
        Stim.lockOutcome 1 InvokeResult.success,
        Stim.doorOutcome 1 InvokeResult.success]).door = DoorLeaf.openIdle ∧
    lockLeafInLocked
      (sysRun [Stim.door (DoorEvent.doorLock "1234"), Stim.door DoorEvent.doorOpen,
          Stim.lockOutcome 1 InvokeResult.success,
          Stim.doorOutcome 1 InvokeResult.success]).lock.leaf = true := by
  decide

/-- C3: in any run in which an invocation was recorded with generation `g`
and the recorded generation no longer matches at delivery time (the
invoking state was exited, or exited and re-entered, meanwhile), delivering
the invocation's outcome leaves the whole actor system unchanged — the
stale event is silently discarded.  This covers both the lock child's
invocations and the door's own invocations. -/
theorem stale_invocation_outcome_discarded (stims1 stims2 : List Stim)
    (g : Nat) (r : InvokeResult) :
    ((sysRun stims1).lock.inflight = some g →
      (sysRun (stims1 ++ stims2)).lock.inflight ≠ some g →
      sysStep (Stim.lockOutcome g r) (sysRun (stims1 ++ stims2)) =
        sysRun (stims1 ++ stims2)) ∧
    ((sysRun stims1).doorInflight = some g →
      (sysRun (stims1 ++ stims2)).doorInflight ≠ some g →
      sysStep (Stim.doorOutcome g r) (sysRun (stims1 ++ stims2)) =
        sysRun (stims1 ++ stims2)) := by
  constructor
  · intro _ h
    simp [sysStep, lockMacroOutcome, h]
  · intro _ h
    simp [sysStep, doorDeliver, h]

/-- Witness for C3: start the `openDoor` invocation via `door.open`, let it
resolve (exiting `closed.opening`), then deliver a stale duplicate outcome
with the old generation: the system is unchanged. -/
theorem stale_invocation_outcome_discarded_witness :
    (sysRun [Stim.door DoorEvent.doorOpen]).doorInflight = some 1 ∧
    (sysRun ([Stim.door DoorEvent.doorOpen] ++
        [Stim.doorOutcome 1 InvokeResult.success])).doorInflight ≠ some 1 ∧
    sysStep (Stim.doorOutcome 1 (InvokeResult.failure "stuck"))
        (sysRun ([Stim.door DoorEvent.doorOpen] ++
          [Stim.doorOutcome 1 InvokeResult.success])) =
      sysRun ([Stim.door DoorEvent.doorOpen] ++
        [Stim.doorOutcome 1 InvokeResult.success]) :=
  ⟨by decide, by decide,
    (stale_invocation_outcome_discarded [Stim.door DoorEvent.doorOpen]
        [Stim.doorOutcome 1 InvokeResult.success] 1
        (InvokeResult.failure "stuck")).2 (by decide) (by decide)⟩

/-- A stimulus never changes the actor's status. -/
theorem sysStep_status (st : Stim) (s : Sys) : (sysStep st s).status = s.status := by
  obtain ⟨d, c, dg, di, stt, l⟩ := s
  cases st with
  | door e =>
      cases e <;> cases d <;>
        first
          | rfl
          | (simp only [sysStep, doorStep]; split <;> rfl)
  | lockOutcome g r =>
      rfl
  | doorOutcome g r =>
      simp only [sysStep, doorDeliver]
      split
      · split <;> rfl
      · rfl

/-- The actor stays in status `running` along every run. -/
theorem sysRun_status (stims : List Stim) :
    (sysRun stims).status = ActorStatus.running := by
  suffices h : ∀ s : Sys,
      (stims.foldl (fun s st => sysStep st s) s).status = s.status by
    exact h sysInit
  induction stims with
  | nil => intro s; rfl
  | cons st rest ih =>
      intro s
      rw [List.foldl_cons, ih, sysStep_status]

/-- C4: a successful outcome of the `openDoor` invocation bound to
`closed.opening` routes through the declared success transition (the final
child raises `closed`'s onDone, landing in `open`), a failed outcome routes
through the declared failure transition back to `closed.idle` with the
error description recorded into context, `door.open` from `closed.idle`
starts the invocation, and an invocation failure is never fatal: the actor
status is `running` after every run. -/
theorem invocation_outcome_routing :
    (∀ (s : Sys) (g : Nat),
      s.door = DoorLeaf.closedOpening → s.doorInflight = some g →
        (sysStep (Stim.doorOutcome g InvokeResult.success) s).door =
            DoorLeaf.openIdle ∧
        (sysStep (Stim.doorOutcome g InvokeResult.success) s).status = s.status) ∧
    (∀ (s : Sys) (g : Nat) (m : String),
      s.door = DoorLeaf.closedOpening → s.doorInflight = some g →
        (sysStep (Stim.doorOutcome g (InvokeResult.failure m)) s).door =
            DoorLeaf.closedIdle ∧
        (sysStep (Stim.doorOutcome g (InvokeResult.failure m)) s).doorCtx.error = m ∧
        (sysStep (Stim.doorOutcome g (InvokeResult.failure m)) s).status = s.status) ∧
    (∀ s : Sys,
      s.door = DoorLeaf.closedIdle → s.doorCtx.locked = false →
        (sysStep (Stim.door DoorEvent.doorOpen) s).door = DoorLeaf.closedOpening ∧
        (sysStep (Stim.door DoorEvent.doorOpen) s).doorInflight =
          some (s.doorGen + 1)) ∧
    (∀ stims : List Stim, (sysRun stims).status = ActorStatus.running) := by
  refine ⟨?_, ?_, ?_, sysRun_status⟩
  · intro s g hd hg
    obtain ⟨d, c, dg, di, stt, l⟩ := s
    simp only at hd hg
    subst hd hg
    simp [sysStep, doorDeliver]
  · intro s g m hd hg
    obtain ⟨d, c, dg, di, stt, l⟩ := s
    simp only at hd hg
    subst hd hg
    simp [sysStep, doorDeliver]
  · intro s hd hl
    obtain ⟨d, c, dg, di, stt, l⟩ := s
    simp only at hd hl
    subst hd
    simp [sysStep, doorStep, hl]

/-- Witness for C4: from the initial state, `door.open` enters
`closed.opening`; delivering success takes the actor to `open`, delivering
failure returns it to `closed.idle` with the message recorded, and the
status stays `running`. -/
theorem invocation_outcome_routing_witness :
    (sysStep (Stim.doorOutcome 1 InvokeResult.success)
        (sysRun [Stim.door DoorEvent.doorOpen])).door = DoorLeaf.openIdle ∧
    (sysStep (Stim.doorOutcome 1 (InvokeResult.failure "the door is stuck"))
        (sysRun [Stim.door DoorEvent.doorOpen])).door = DoorLeaf.closedIdle ∧
    (sysStep (Stim.doorOutcome 1 (InvokeResult.failure "the door is stuck"))
        (sysRun [Stim.door DoorEvent.doorOpen])).doorCtx.error =
      "the door is stuck" ∧
    (sysStep (Stim.door DoorEvent.doorOpen) sysInit).door =
      DoorLeaf.closedOpening :=
  ⟨(invocation_outcome_routing.1 _ 1 (by decide) (by decide)).1,
    (invocation_outcome_routing.2.1 _ 1 "the door is stuck"
        (by decide) (by decide)).1,
    (invocation_outcome_routing.2.1 _ 1 "the door is stuck"
        (by decide) (by decide)).2.1,
    (invocation_outcome_routing.2.2.1 sysInit (by decide) (by decide)).1⟩

/-- C5: for every reachable actor state with no invocation pending,
serializing, rehydrating the blob with the same definition, and serializing
again yields the same blob, and the rehydrated actor has the same active
configuration and context as the original (door leaf and context, lock leaf
and context), no events having been processed in between. -/
theorem persisted_snapshot_roundtrip (stims : List Stim)
    (_hLock : (sysRun stims).lock.inflight = none)
    (_hDoor : (sysRun stims).doorInflight = none) :
    getPersistedSnapshot (rehydrate (getPersistedSnapshot (sysRun stims))) =
      getPersistedSnapshot (sysRun stims) ∧
    (rehydrate (getPersistedSnapshot (sysRun stims))).door = (sysRun stims).door ∧
    (rehydrate (getPersistedSnapshot (sysRun stims))).doorCtx =
      (sysRun stims).doorCtx ∧
    (rehydrate (getPersistedSnapshot (sysRun stims))).lock.leaf =
      (sysRun stims).lock.leaf ∧
    (rehydrate (getPersistedSnapshot (sysRun stims))).lock.context =
      (sysRun stims).lock.context :=
  ⟨rfl, rfl, rfl, rfl, rfl⟩

/-- Witness for C5: the initial state has no invocation pending and
round-trips to an identical blob. -/
theorem persisted_snapshot_roundtrip_witness :
    (sysRun []).lock.inflight = none ∧ (sysRun []).doorInflight = none ∧
    getPersistedSnapshot (rehydrate (getPersistedSnapshot (sysRun []))) =
      getPersistedSnapshot (sysRun []) :=
  ⟨by decide, by decide,
    (persisted_snapshot_roundtrip [] (by decide) (by decide)).1⟩

/-- One stimulus preserves agreement of the door's derived `locked` flag
with the lock child's configuration. -/
theorem sysStep_locked_synced (st : Stim) (s : Sys)
    (h : s.doorCtx.locked = lockLeafInLocked s.lock.leaf) :
    (sysStep st s).doorCtx.locked = lockLeafInLocked (sysStep st s).lock.leaf := by
  obtain ⟨d, ⟨lk, er⟩, dg, di, stt, l⟩ := s
  cases st with
  | door e =>
      cases e <;> cases d <;>
        first
          | exact h
          | rfl
          | (simp only [sysStep, doorStep]; split <;> exact h)
  | lockOutcome g r =>
      simp only [sysStep, lockMacroOutcome]
      split
      · rfl
      · exact h
  | doorOutcome g r =>
      simp only [sysStep, doorDeliver]
      split
      · split <;> exact h
      · exact h

/-- Along every run, at quiescence the door's derived `locked` flag agrees
with the lock child's configuration. -/
theorem sysRun_locked_synced (stims : List Stim) :
    (sysRun stims).doorCtx.locked = lockLeafInLocked (sysRun stims).lock.leaf := by
  suffices h : ∀ s : Sys, s.doorCtx.locked = lockLeafInLocked s.lock.leaf →
      (stims.foldl (fun s st => sysStep st s) s).doorCtx.locked =
        lockLeafInLocked (stims.foldl (fun s st => sysStep st s) s).lock.leaf by
    exact h sysInit rfl
  induction stims with
  | nil => exact fun s hs => hs
  | cons st rest ih =>
      intro s hs
      rw [List.foldl_cons]
      exact ih _ (sysStep_locked_synced st s hs)

/-- C6 (amended): for both children spawned with `syncSnapshot` (Door.tsx
and the part_000 first variant), every macro-step completed by the lock
child enqueues exactly one snapshot-changed event into the parent's
mailbox — one per delivered external event, one per accepted invocation
outcome, and none for a discarded stale outcome, which completes no
macro-step — so no notification is dropped or duplicated at enqueue.  In
Door.tsx, whose `xstate.snapshot.lock` handler is declared at the machine
root, consuming the enqueued events keeps the parent's derived `locked`
field in agreement with the lock child's configuration along every
interleaving of stimuli, so a child reaching `locked` updates the parent
within the same quiescent macro-step.  In the part_000 first variant the
handler is declared only under `closed`, so a dequeued snapshot event
updates the derived `locked` field exactly when the door is closed and is
discarded otherwise. -/
theorem sync_snapshot_propagation :
    (∀ (e : LockEvent) (s : LockActor), (lockMacro e s).2.length = 1) ∧
    (∀ (g : Nat) (r : InvokeResult) (s : LockActor),
      (lockMacroOutcome g r s).2.length =
        if s.inflight = some g then 1 else 0) ∧
    (∀ stims : List Stim,
      (sysRun stims).doorCtx.locked =
        lockLeafInLocked (sysRun stims).lock.leaf) ∧
    (∀ (e : V1.LockEvent) (s : V1.LockActor), (V1.lockMacro e s).2.length = 1) ∧
    (∀ (m : V1.SnapshotMsg) (s : V1.Sys),
      (V1.doorHandleSnapshot m s).locked =
        if s.door = V1.DoorLeaf.closed then m.valueLockedDefined
        else s.locked) := by
  refine ⟨fun e s => rfl, fun g r s => ?_, sysRun_locked_synced,
    fun e s => rfl, fun m s => ?_⟩
  · by_cases h : s.inflight = some g <;> simp [lockMacroOutcome, h]
  · obtain ⟨d, lk, l, pq, cq⟩ := s
    cases d <;> simp [V1.doorHandleSnapshot]

/-- C10: the `lock.lock` transition from `unlocked.idle` has no guard: any
password string, including the empty string, is accepted and stored into
`context.password`; and completing an unlock (the `locked` compound's
onDone with `clearPassword`) resets `context.password` to the empty string,
so immediately after a successful unlock the `isCorrectPassword` guard
holds exactly for the empty-string password. -/
theorem lock_accepts_any_password_unlock_resets (s : LockActor) (pw : String)
    (g : Nat) :
    (s.leaf = LockLeaf.unlockedIdle →
      (lockStep (LockEvent.lock pw) s).leaf = LockLeaf.unlockedLocking ∧
      (lockStep (LockEvent.lock pw) s).context.password = pw) ∧
    (s.leaf = LockLeaf.lockedUnlocking → s.inflight = some g →
      (lockDeliver g InvokeResult.success s).context.password = "" ∧
      ∀ q : String,
        isCorrectPassword (lockDeliver g InvokeResult.success s).context q = true ↔
          q = "") := by
  obtain ⟨leaf, ⟨p, er⟩, gen, fl⟩ := s
  constructor
  · intro hleaf
    simp only at hleaf
    subst hleaf
    exact ⟨rfl, rfl⟩
  · intro hleaf hfl
    simp only at hleaf hfl
    subst hleaf hfl
    constructor
    · simp [lockDeliver, lockResolve]
    · intro q
      simp [lockDeliver, lockResolve, isCorrectPassword]
      exact eq_comm

/-- Witness for C10: from the initial state the empty password is accepted
and stored; after locking with `"1234"` and completing a successful unlock,
the stored password is empty and `isCorrectPassword` holds for the empty
password. -/
theorem lock_accepts_any_password_unlock_resets_witness :
    lockInitial.leaf = LockLeaf.unlockedIdle ∧
    (lockStep (LockEvent.lock "") lockInitial).context.password = "" ∧
    (lockDeliver 2 InvokeResult.success
        (lockStep (LockEvent.unlock "1234")
          (lockDeliver 1 InvokeResult.success
            (lockStep (LockEvent.lock "1234") lockInitial)))).context.password =
      "" ∧
    isCorrectPassword
        (lockDeliver 2 InvokeResult.success
          (lockStep (LockEvent.unlock "1234")
            (lockDeliver 1 InvokeResult.success
              (lockStep (LockEvent.lock "1234") lockInitial)))).context "" =
      true :=
  ⟨rfl,
    ((lock_accepts_any_password_unlock_resets lockInitial "" 0).1 rfl).2,
    ((lock_accepts_any_password_unlock_resets
        (lockStep (LockEvent.unlock "1234")
          (lockDeliver 1 InvokeResult.success
            (lockStep (LockEvent.lock "1234") lockInitial))) "x" 2).2
      (by decide) (by decide)).1,
    ((((lock_accepts_any_password_unlock_resets
        (lockStep (LockEvent.unlock "1234")
          (lockDeliver 1 InvokeResult.success
            (lockStep (LockEvent.lock "1234") lockInitial))) "x" 2).2
      (by decide) (by decide)).2 "").mpr rfl)⟩

end DoorTsx

namespace Guards

/-- C7 counterexample: two evaluations of the `part_001` `door.open` guard
with equal context and equal event payload return different booleans,
because the guard reads the spawned lock actor's snapshot: with the lock at
`unlocked.idle` it returns true, with the lock at `locked.idle` it returns
false. -/
theorem p1_door_open_guard_reads_lock_actor :
    evalGuard GuardId.p1DoorOpen
        { password := "", locked := false, lockRefSpawned := true }
        { password := "" }
        { lockLeaf := P1LockLeaf.unlockedIdle } = true ∧
    evalGuard GuardId.p1DoorOpen
        { password := "", locked := false, lockRefSpawned := true }
        { password := "" }
        { lockLeaf := P1LockLeaf.lockedIdle } = false :=
  ⟨rfl, rfl⟩

/-- C7 (amended): every guard in the repository other than the `part_001`
`door.open` guard is pure: its value is a function of the context and the
event payload alone, unchanged under any state of the rest of the actor
system; the `part_001` `door.open` guard alone additionally reads the
spawned lock actor's current snapshot. -/
theorem guards_pure_over_context_event (g : GuardId)
    (hg : g ≠ GuardId.p1DoorOpen) (c : GuardContext) (e : GuardEvent)
    (w w' : GuardWorld) :
    evalGuard g c e w = evalGuard g c e w' := by
  cases g
  case p1DoorOpen => exact absurd rfl hg
  all_goals rfl

/-- Witness for C7 (amended): the Door.tsx `isCorrectPassword` guard
evaluates identically under two different lock-actor states. -/
theorem guards_pure_over_context_event_witness :
    GuardId.doorTsxIsCorrectPassword ≠ GuardId.p1DoorOpen ∧
    evalGuard GuardId.doorTsxIsCorrectPassword
        { password := "1234", locked := false, lockRefSpawned := true }
        { password := "1234" }
        { lockLeaf := P1LockLeaf.unlockedIdle } =
      evalGuard GuardId.doorTsxIsCorrectPassword
        { password := "1234", locked := false, lockRefSpawned := true }
        { password := "1234" }
        { lockLeaf := P1LockLeaf.lockedIdle } :=
  ⟨by decide, guards_pure_over_context_event _ (by decide) _ _ _ _⟩

end Guards

namespace V3

/-- Handling a lock-manager event never changes the third variant door's
configuration. -/
theorem doorHandleParentEvt_door (p : ParentEvt) (s : Sys) :
    (doorHandleParentEvt p s).door = s.door := by
  obtain ⟨d, c, dg, di, l⟩ := s
  cases p <;> cases d <;> rfl

/-- Folding lock-manager events into the door never changes the door's
configuration. -/
theorem foldl_doorHandleParentEvt_door (evs : List ParentEvt) (s : Sys) :
    (evs.foldl (fun t ev => doorHandleParentEvt ev t) s).door = s.door := by
  induction evs generalizing s with
  | nil => rfl
  | cons p rest ih => rw [List.foldl_cons, ih, doorHandleParentEvt_door]

/-- A stimulus never takes the third variant's door into the state declared
under the literal key `"*"`. -/
theorem sysStep_ne_star (st : Stim) (s : Sys) (h : s.door ≠ DoorLeaf.star) :
    (sysStep st s).door ≠ DoorLeaf.star := by
  obtain ⟨d, c, dg, di, l⟩ := s
  cases st with
  | door e =>
      cases e <;> cases d <;>
        first
          | exact h
          | exact fun hx => DoorLeaf.noConfusion hx
          | (simp only [sysStep, doorStep]
             split
             · exact h
             · exact fun hx => DoorLeaf.noConfusion hx)
  | lockOutcome g r =>
      simp only [sysStep]
      split
      · rw [foldl_doorHandleParentEvt_door]
        exact h
      · exact h
  | doorOutcome g r =>
      simp only [sysStep, doorDeliver]
      split
      · split <;>
          first
            | exact h
            | exact fun hx => DoorLeaf.noConfusion hx
      · exact h

/-- Along every run the third variant's door never rests in the state
declared under the literal key `"*"`. -/
theorem sysRun_ne_star (stims : List Stim) :
    (sysRun stims).door ≠ DoorLeaf.star := by
  suffices h : ∀ s : Sys, s.door ≠ DoorLeaf.star →
      (stims.foldl (fun s st => sysStep st s) s).door ≠ DoorLeaf.star by
    exact h sysInit (fun hx => DoorLeaf.noConfusion hx)
  induction stims with
  | nil => exact fun s hs => hs
  | cons st rest ih =>
      intro s hs
      rw [List.foldl_cons]
      exact ih _ (sysStep_ne_star st s hs)

/-- A `lock.error` event delivered to the door in any state other than the
never-entered `"*"` state leaves the door actor entirely unchanged. -/
theorem doorHandleParentEvt_lockError (m : String) (s : Sys)
    (h : s.door ≠ DoorLeaf.star) :
    doorHandleParentEvt (ParentEvt.lockError m) s = s := by
  obtain ⟨d, c, dg, di, l⟩ := s
  cases d
  case star => exact absurd rfl h
  all_goals rfl

/-- Away from the `"*"` state, a failing lock invocation outcome (whose
actions send `lock.error` to the parent) leaves the door's context
unchanged. -/
theorem lockOutcome_failure_doorCtx (g : Nat) (m : String) (s : Sys)
    (h : s.door ≠ DoorLeaf.star) :
    (sysStep (Stim.lockOutcome g (InvokeResult.failure m)) s).doorCtx =
      s.doorCtx := by
  obtain ⟨d, c, dg, di, ⟨ll, lc, lg, lf⟩⟩ := s
  simp only [sysStep]
  split
  · cases ll <;> cases d <;>
      first
        | rfl
        | exact absurd rfl h
  · rfl

/-- C9: the third variant's `lock.error` handler sits under a states key
literally named `"*"`, an ordinary state node that no transition targets,
not a wildcard; hence for every reachable door configuration, a
`lock.error` event from the lock manager leaves the parent actor — its
entire context, `context.error` included — unchanged, and likewise a
failing lock invocation (which sends `lock.error` to the parent) never
changes the parent's context. -/
theorem lock_error_handler_unreachable (stims : List Stim) (g : Nat)
    (m : String) :
    doorHandleParentEvt (ParentEvt.lockError m) (sysRun stims) = sysRun stims ∧
    (sysStep (Stim.lockOutcome g (InvokeResult.failure m)) (sysRun stims)).doorCtx =
      (sysRun stims).doorCtx :=
  ⟨doorHandleParentEvt_lockError m _ (sysRun_ne_star stims),
    lockOutcome_failure_doorCtx g m _ (sysRun_ne_star stims)⟩

end V3

namespace V1

/-- C6 counterexample: in the part_000 first variant, against the claim as
stated, a child reaching a state that signals locked need not update the
parent's derived `locked` field within the same or next parent macro-step.
Interleaving from the initial state: deliver `door.lock "1234"` (forwarded
into the child's mailbox), deliver `door.open` (the door opens on the
still-false flag), let the child process the lock event (it reaches
`locked.idle` and enqueues its snapshot event), then let the parent pull
that event while in `open`.  Both mailboxes are then drained — every
macro-step the notification could have reached has completed — yet the
lock child is locked and the parent's derived `locked` field is still
false: the update is lost. -/
theorem snapshot_update_lost_while_open :
    (sysRun [Choice.ext (DoorEvent.doorLock "1234"),
        Choice.ext DoorEvent.doorOpen, Choice.pullChild,
        Choice.pullParent]).lock.leaf = LockLeaf.lockedIdle ∧
    (sysRun [Choice.ext (DoorEvent.doorLock "1234"),
        Choice.ext DoorEvent.doorOpen, Choice.pullChild,
        Choice.pullParent]).parentQueue = [] ∧
    (sysRun [Choice.ext (DoorEvent.doorLock "1234"),
        Choice.ext DoorEvent.doorOpen, Choice.pullChild,
        Choice.pullParent]).childQueue = [] ∧
    (sysRun [Choice.ext (DoorEvent.doorLock "1234"),
        Choice.ext DoorEvent.doorOpen, Choice.pullChild,
        Choice.pullParent]).locked = false := by
  decide

end V1

end LearnXState
